import Mathlib

/-!
Shallow embedding of the MGNREGA district dashboard (src/src/App.js).

The repository is a single-page React application. Its logic surface is:
a static district list, a sample time-series, a number formatter, a
fetch-with-fallback effect on the dashboard, a geolocation-to-district
matching heuristic, a multi-year comparison table and a district
comparison mock-series generator, plus a two-variant language toggle.
Each piece is embedded below as a pure Lean function over explicit data,
and the stated properties are settled against those functions.
-/

/-- A district reference entry, from the static `SAMPLE_DISTRICTS` list. -/
structure District where
  district_code : String
  district_name : String
deriving DecidableEq, Repr

/-- The static district list (App.js lines 12-23). -/
def SAMPLE_DISTRICTS : List District :=
  [ ⟨"0501", "PATNA"⟩,
    ⟨"0502", "NALANDA"⟩,
    ⟨"0506", "JEHANABAD"⟩,
    ⟨"0518", "SAMASTIPUR"⟩,
    ⟨"0544", "SUPAUL"⟩,
    ⟨"0504", "ROHTAS"⟩,
    ⟨"0508", "NAWADA"⟩,
    ⟨"0513", "PURBI CHAMPARAN"⟩,
    ⟨"0520", "MADHUBANI"⟩,
    ⟨"0541", "ARARIA"⟩ ]

/-- One month of the time series (`month`, `households`, `persondays`,
`expenditure`). -/
structure TimeseriesPoint where
  month : String
  households : Nat
  persondays : Nat
  expenditure : Nat
deriving DecidableEq, Repr

/-- The built-in sample time-series (App.js lines 26-36): nine months,
April through December. -/
def SAMPLE_TIMESERIES : List TimeseriesPoint :=
  [ ⟨"Apr", 90000, 300000, 12000⟩,
    ⟨"May", 92000, 320000, 13000⟩,
    ⟨"Jun", 87000, 310000, 12500⟩,
    ⟨"Jul", 94000, 330000, 14000⟩,
    ⟨"Aug", 96000, 340000, 15000⟩,
    ⟨"Sep", 88000, 300000, 11800⟩,
    ⟨"Oct", 91000, 315000, 12700⟩,
    ⟨"Nov", 93000, 325000, 13200⟩,
    ⟨"Dec", 87155, 3443327, 15209⟩ ]

/-- Helper for locale digit grouping: walks a digit list given
least-significant digit first and inserts a comma before every fourth,
seventh, ... digit, mirroring the default `toLocaleString` grouping. -/
def groupDigitsAux : Nat → List Char → List Char
  | _, [] => []
  | k, c :: cs =>
    if k ≠ 0 ∧ k % 3 = 0 then ',' :: c :: groupDigitsAux (k + 1) cs
    else c :: groupDigitsAux (k + 1) cs

/-- Embedding of JavaScript `Number.prototype.toLocaleString` on integers:
decimal digits grouped in threes with commas, with a leading minus sign
for negatives. -/
def toLocaleString (n : Int) : String :=
  let digits := (toString n.natAbs).data
  (if n < 0 then "-" else "") ++ String.mk (groupDigitsAux 0 digits.reverse).reverse

/-- Embedding of `(n / scale).toFixed(1)` for a natural `n` and a positive
power-of-ten `scale`: the quotient rounded (half up) to one decimal place,
printed with exactly one digit after the point. -/
def toFixed1 (n scale : Nat) : String :=
  let t := (n * 10 + scale / 2) / scale
  toString (t / 10) ++ "." ++ toString (t % 10)

/-- The friendly number formatter `formatNumber` (App.js lines 41-46).
`none` stands for a JavaScript `null` or `undefined` argument. -/
def formatNumber : Option Int → String
  | none => "—"
  | some n =>
    if n ≥ 10000000 then toFixed1 n.toNat 10000000 ++ " Cr"
    else if n ≥ 100000 then toFixed1 n.toNat 100000 ++ " L"
    else toLocaleString n

/-- The flat KPI snapshot for a district, with the field names used by the
dashboard (including the source's spelling of the payments field).
The percentage field is rational since the sample value is `100.74`. -/
structure KPI where
  district_name : String
  Total_Individuals_Worked : Nat
  Total_Households_Worked : Nat
  Total_Exp : Nat
  Women_Persondays : Nat
  Average_days_of_employment_provided_per_Household : Nat
  percentage_payments_gererated_within_15_days : ℚ
deriving DecidableEq, Repr

/-- The fallback KPI snapshot built in the fetch `catch` branch
(App.js lines 144-152): `district_name` is looked up from
`SAMPLE_DISTRICTS` by the selected code, with `"Unknown"` when absent;
every other field is a literal constant. -/
def fallbackKpis (district : String) : KPI :=
  { district_name :=
      match SAMPLE_DISTRICTS.find? (fun d => d.district_code == district) with
      | some d => d.district_name
      | none => "Unknown",
    Total_Individuals_Worked := 90928,
    Total_Households_Worked := 87155,
    Total_Exp := 15209,
    Women_Persondays := 1696959,
    Average_days_of_employment_provided_per_Household := 39,
    percentage_payments_gererated_within_15_days := 100.74 }

/-- The dashboard view state held by `Dashboard`: the selected district
code, the KPI snapshot (absent until a fetch resolves), and the charted
time-series. -/
structure DashState where
  district : String
  districtInfo : Option KPI
  timeseries : List TimeseriesPoint
deriving DecidableEq, Repr

/-- The initial dashboard state (App.js lines 124-126): no district
selected, no KPI snapshot, sample series charted. -/
def initState : DashState :=
  ⟨"", none, SAMPLE_TIMESERIES⟩

/-- Outcome of the district fetch: a parsed JSON payload carrying the
optional `kpis` and `timeseries` fields, or any failure (network error or
a body that does not parse as JSON). -/
inductive FetchResult where
  | success (kpis : Option KPI) (timeseries : Option (List TimeseriesPoint))
  | failure
deriving DecidableEq, Repr

/-- The user-interrupting notice shown by the fetch `catch` branch. -/
def fetchFailureNotice : String := "Failed to fetch live data, showing sample instead."

/-- The fetch effect on the dashboard state (App.js lines 130-155),
returned together with the alert raised, if any. On success the snapshot
becomes the payload's `kpis` and the series becomes `timeseries || []`;
on failure the fallback snapshot and the sample series are substituted
and the user is alerted. -/
def applyFetch (district : String) (r : FetchResult) (s : DashState) :
    DashState × Option String :=
  match r with
  | .success k ts =>
    ({ s with districtInfo := k, timeseries := ts.getD [] }, none)
  | .failure =>
    ({ s with districtInfo := some (fallbackKpis district),
              timeseries := SAMPLE_TIMESERIES },
     some fetchFailureNotice)

/-- Whether `small` occurs contiguously at the head of `big`. -/
def startsWithChars : List Char → List Char → Bool
  | [], _ => true
  | _ :: _, [] => false
  | a :: as, b :: bs => a == b && startsWithChars as bs

/-- Whether `small` occurs contiguously anywhere inside `big`, the
embedding of JavaScript `String.prototype.includes`. -/
def hasSubstr (small : List Char) : List Char → Bool
  | [] => startsWithChars small []
  | c :: rest => startsWithChars small (c :: rest) || hasSubstr small rest

/-- The first whitespace-delimited token of a string, the embedding of
`s.split(' ')[0]`. -/
def firstToken (s : String) : String :=
  String.mk (s.data.takeWhile (fun c => c != ' '))

/-- The geolocation matching heuristic (App.js line 174): the first
district in `SAMPLE_DISTRICTS` whose name's first token occurs inside the
upper-cased locality; an empty locality is falsy and matches nothing. -/
def matchDistrict (locality : String) : Option District :=
  SAMPLE_DISTRICTS.find? (fun d =>
    !locality.data.isEmpty &&
      hasSubstr (firstToken d.district_name).data (locality.data.map Char.toUpper))

/-- Outcome of the detect-my-district interaction: geolocation API
missing, permission denied, reverse-geocoding request failed, or a
locality string obtained from the geocoder. -/
inductive GeoOutcome where
  | unsupported
  | denied
  | geocodeFailed
  | located (locality : String)
deriving DecidableEq, Repr

/-- The detect-my-district handler (App.js lines 158-184) as a function
from the interaction outcome and current state to the next state and the
alert raised, if any. Only a successful locality match changes the state,
and then only the selected district code. -/
def handleDetect (o : GeoOutcome) (s : DashState) : DashState × Option String :=
  match o with
  | .unsupported => (s, some "Geolocation not available on this device")
  | .denied => (s, some "Location permission denied or unavailable")
  | .geocodeFailed => (s, some "Auto-detect failed — please select manually.")
  | .located loc =>
    match matchDistrict loc with
    | some d => ({ s with district := d.district_code }, none)
    | none => (s, some "Could not auto-detect district. Please select from list.")

/-- The mock per-year state data (App.js lines 249-252): 2023-24 is the
sample series; 2024-25 is the sample series with persondays shifted by
5000 and expenditure by 1000. -/
def mockStateData : List (String × List TimeseriesPoint) :=
  [ ("2023-24", SAMPLE_TIMESERIES),
    ("2024-25", SAMPLE_TIMESERIES.map (fun d =>
      { d with persondays := d.persondays + 5000,
               expenditure := d.expenditure + 1000 })) ]

/-- Lookup of a year key in the state data object (`data[year]`). -/
def lookupYear (data : List (String × List TimeseriesPoint)) (y : String) :
    Option (List TimeseriesPoint) :=
  (data.find? (fun p => p.1 == y)).map (fun p => p.2)

/-- The fixed month ordering of the comparison table (App.js line 269). -/
def months : List String :=
  ["Apr", "May", "Jun", "Jul", "Aug", "Sep", "Oct", "Nov", "Dec", "Jan", "Feb", "Mar"]

/-- `data[year]?.find(m => m.month === month)?.expenditure || 0`: a
year's expenditure for a month, defaulting to zero when the year or the
month is absent. -/
def yearExpenditure (data : List (String × List TimeseriesPoint))
    (year month : String) : Nat :=
  (((lookupYear data year).bind
      (fun ts => ts.find? (fun m => m.month == month))).map
    (fun p => p.expenditure)).getD 0

/-- The combined comparison table (App.js lines 270-274): one row per
month of `months`, carrying the month label and, per selected year, that
year's expenditure field keyed by the year string. -/
def combinedData (selectedYears : List String)
    (data : List (String × List TimeseriesPoint)) :
    List (String × List (String × Nat)) :=
  months.map (fun month =>
    (month, selectedYears.map (fun year => (year, yearExpenditure data year month))))

/-- `Math.round(n * factor / 10)` on naturals: since `n * factor` is an
integer, this is exact round-half-up of a one-decimal quotient. -/
def roundScale (n factor : Nat) : Nat :=
  (n * factor + 5) / 10

/-- `parseInt(code.slice(-1))` when it yields a digit: the numeric value
of the last character, `none` for an empty code or a non-digit ending. -/
def lastDigit (code : String) : Option Nat :=
  match code.data.getLast? with
  | some c => if c.isDigit then some (c.toNat - '0'.toNat) else none
  | none => none

/-- The district-comparison mock series generator `getMock`
(App.js lines 325-330): an empty code uses factor 10; a code ending in a
digit uses factor `(digit % 5) + 8`; the result scales persondays and
expenditure by `factor / 10` with rounding and keeps month and households.
A non-digit ending makes `parseInt` return NaN and poisons the series,
embedded as `none`. -/
def getMock (code : String) : Option (List TimeseriesPoint) :=
  (if code.data.isEmpty then some 10 else (lastDigit code).map (fun d => d % 5 + 8)).map
    (fun factor => SAMPLE_TIMESERIES.map (fun b =>
      { b with persondays := roundScale b.persondays factor,
               expenditure := roundScale b.expenditure factor }))

/-- The two supported language variants of the UI. -/
inductive Lang where
  | en
  | hi
deriving DecidableEq, Repr

/-- The toggle button action `setLang(lang === 'hi' ? 'en' : 'hi')`
(App.js line 71). -/
def toggleLang : Lang → Lang
  | .hi => .en
  | .en => .hi

/-- Header link: Home (App.js line 63). -/
def navHome : Lang → String
  | .hi => "मुख्‍य पृष्ठ"
  | .en => "Home"

/-- Header link: State Comparison (App.js line 65). -/
def navStateComparison : Lang → String
  | .hi => "राज्य तुलना"
  | .en => "State Comparison"

/-- Header link: Compare (App.js line 68). -/
def navCompare : Lang → String
  | .hi => "तुलना"
  | .en => "Compare"

/-- Header link: About (App.js line 69). -/
def navAbout : Lang → String
  | .hi => "जानकारी"
  | .en => "About"

/-- The language toggle button's own label (App.js line 75). -/
def langToggleLabel : Lang → String
  | .hi => "EN"
  | .en => "हिन्दी"

/-- Dashboard page heading (App.js line 188). -/
def dashboardTitle : Lang → String
  | .hi => "जिला प्रदर्शन"
  | .en => "District Performance"

/-- KPI card title: total individuals (App.js line 199). -/
def kpiTitleIndividuals : Lang → String
  | .hi => "कुल व्यक्ति"
  | .en => "Total Individuals"

/-- KPI card title: total expenditure (App.js line 200). -/
def kpiTitleExpenditure : Lang → String
  | .hi => "कुल खर्च (लाख)"
  | .en => "Total Expenditure"

/-- KPI card title: average days per household (App.js line 201). -/
def kpiTitleAvgDays : Lang → String
  | .hi => "औसत दिनों/घरेलू"
  | .en => "Avg days/HH"

/-- Compare page heading (App.js line 337). -/
def compareTitle : Lang → String
  | .hi => "जिला तुलना"
  | .en => "Compare Districts"

/-- About page heading (App.js line 403). -/
def aboutTitle : Lang → String
  | .hi => "MGNREGA क्या है?"
  | .en => "What is MGNREGA?"

/-- The language-parameterized labels rendered under a given language. -/
def translatedLabels (l : Lang) : List String :=
  [ navHome l, navStateComparison l, navCompare l, navAbout l,
    langToggleLabel l, dashboardTitle l, kpiTitleIndividuals l,
    kpiTitleExpenditure l, kpiTitleAvgDays l, compareTitle l, aboutTitle l ]

/-- The State Comparison page's headings (App.js lines 279, 289, 301):
the component receives no language flag, so these strings are rendered
for every application language. -/
def stateComparisonLabels (_ : Lang) : List String :=
  [ "State Performance Comparison", "Monthly Expenditure",
    "Total Households Worked" ]

/-- All user-facing page labels visible under a given application
language: the language-parameterized ones followed by the State
Comparison page's fixed headings. -/
def appLabels (l : Lang) : List String :=
  translatedLabels l ++ stateComparisonLabels l

/-- The KPI card section of the dashboard (App.js lines 199-201) as
title/value pairs: titles depend on the language, values only on the
snapshot. -/
def kpiSection (l : Lang) (info : KPI) : List (String × String) :=
  [ (kpiTitleIndividuals l, formatNumber (some (info.Total_Individuals_Worked : Int))),
    (kpiTitleExpenditure l, "₹ " ++ formatNumber (some (info.Total_Exp : Int))),
    (kpiTitleAvgDays l, toString info.Average_days_of_employment_provided_per_Household) ]

/-- C2: `formatNumber` returns the placeholder glyph for an absent input;
for n ≥ 10,000,000 the value scaled by 10,000,000 rounded to one decimal
with the crore suffix; for 100,000 ≤ n < 10,000,000 the value scaled by
100,000 rounded to one decimal with the lakh suffix; and the
locale-grouped digit string for n < 100,000. Being a total Lean function,
it raises no error on any input. -/
theorem formatNumber_spec :
    formatNumber none = "—" ∧
    (∀ n : Int, 10000000 ≤ n →
      formatNumber (some n) = toFixed1 n.toNat 10000000 ++ " Cr") ∧
    (∀ n : Int, 100000 ≤ n → n < 10000000 →
      formatNumber (some n) = toFixed1 n.toNat 100000 ++ " L") ∧
    (∀ n : Int, n < 100000 → formatNumber (some n) = toLocaleString n) := by
  refine ⟨rfl, ?_, ?_, ?_⟩
  · intro n h
    show (if n ≥ 10000000 then toFixed1 n.toNat 10000000 ++ " Cr"
      else if n ≥ 100000 then toFixed1 n.toNat 100000 ++ " L"
      else toLocaleString n) = _
    rw [if_pos h]
  · intro n h1 h2
    show (if n ≥ 10000000 then toFixed1 n.toNat 10000000 ++ " Cr"
      else if n ≥ 100000 then toFixed1 n.toNat 100000 ++ " L"
      else toLocaleString n) = _
    rw [if_neg (not_le.mpr h2), if_pos h1]
  · intro n h
    show (if n ≥ 10000000 then toFixed1 n.toNat 10000000 ++ " Cr"
      else if n ≥ 100000 then toFixed1 n.toNat 100000 ++ " L"
      else toLocaleString n) = _
    rw [if_neg (not_le.mpr (by omega)), if_neg (not_le.mpr h)]

/-- Witness for `formatNumber_spec` at inputs 25,000,000, 250,000 and
999, one per guarded branch. -/
theorem formatNumber_spec_witness :
    formatNumber (some 25000000) = toFixed1 ((25000000 : Int).toNat) 10000000 ++ " Cr" ∧
    formatNumber (some 250000) = toFixed1 ((250000 : Int).toNat) 100000 ++ " L" ∧
    formatNumber (some 999) = toLocaleString 999 :=
  ⟨formatNumber_spec.2.1 25000000 (by norm_num),
   formatNumber_spec.2.2.1 250000 (by norm_num) (by norm_num),
   formatNumber_spec.2.2.2 999 (by norm_num)⟩

/-- C9: with an empty district code `getMock` uses factor 10, and scaling
by 10/10 with rounding is the identity on naturals, so the generated
series equals the shared sample series exactly. -/
theorem getMock_empty_identity :
    (∀ n : Nat, roundScale n 10 = n) ∧ getMock "" = some SAMPLE_TIMESERIES := by
  constructor
  · intro n
    unfold roundScale
    omega
  · rfl

/-- C4: for a non-empty district code whose last character is a digit
`c`, `getMock` derives factor `(digit % 5) + 8` and maps the sample
series pointwise, rounding persondays and expenditure scaled by
factor/10 while keeping each month label and households value. -/
theorem getMock_last_digit_factor (code : String) (c : Char)
    (h1 : code ≠ "") (h2 : code.data.getLast? = some c) (h3 : c.isDigit = true) :
    getMock code = some (SAMPLE_TIMESERIES.map (fun b =>
      { b with
        persondays := roundScale b.persondays ((c.toNat - '0'.toNat) % 5 + 8),
        expenditure := roundScale b.expenditure ((c.toNat - '0'.toNat) % 5 + 8) })) := by
  have hne : code.data.isEmpty = false := by
    rcases code with ⟨l⟩
    cases l with
    | nil => exact absurd rfl h1
    | cons a as => rfl
  unfold getMock lastDigit
  rw [hne, h2]
  simp only [if_pos h3, Option.map_some]
  rfl

/-- Witness for `getMock_last_digit_factor` at the district code
`"0501"`, whose last digit 1 yields factor 9. -/
theorem getMock_last_digit_factor_witness :
    getMock "0501" = some (SAMPLE_TIMESERIES.map (fun b =>
      { b with
        persondays := roundScale b.persondays (('1'.toNat - '0'.toNat) % 5 + 8),
        expenditure := roundScale b.expenditure (('1'.toNat - '0'.toNat) % 5 + 8) })) :=
  getMock_last_digit_factor "0501" '1' (by decide) (by decide) (by decide)

/-- C3: with the default selected years 2023-24 and 2024-25 and the
built-in mock year data, the combined comparison table has exactly 12
rows, their month labels follow the fixed Apr..Mar ordering, and each
row carries one field per selected year equal to that year's expenditure
for the month, or 0 when the month is absent from the year's series (as
for Jan, Feb, Mar, which the nine-month sample lacks). -/
theorem combined_comparison_rows :
    (combinedData ["2023-24", "2024-25"] mockStateData).length = 12 ∧
    (combinedData ["2023-24", "2024-25"] mockStateData).map Prod.fst = months ∧
    combinedData ["2023-24", "2024-25"] mockStateData =
      months.map (fun m =>
        (m, [("2023-24", yearExpenditure mockStateData "2023-24" m),
             ("2024-25", yearExpenditure mockStateData "2024-25" m)])) ∧
    yearExpenditure mockStateData "2023-24" "Apr" = 12000 ∧
    yearExpenditure mockStateData "2024-25" "Apr" = 13000 ∧
    yearExpenditure mockStateData "2023-24" "Dec" = 15209 ∧
    yearExpenditure mockStateData "2023-24" "Jan" = 0 ∧
    yearExpenditure mockStateData "2024-25" "Mar" = 0 := by
  refine ⟨by decide, by decide, ?_, by decide, by decide, by decide, by decide, by decide⟩
  rfl

/-- C5: the geolocation heuristic tests, over the district list in order,
whether the first whitespace-delimited token of the district name occurs
inside the upper-cased locality, and takes the first match: the locality
"PATNA DIVISION" selects district 0501 (PATNA) and sets it as the
selected district, while "UNKNOWNPLACE" matches nothing and raises the
manual-selection notice. Every district name's first token is invariant
under upper-casing, so the substring test is case-insensitive in the
locality. -/
theorem geolocation_match_heuristic :
    matchDistrict "PATNA DIVISION" = some ⟨"0501", "PATNA"⟩ ∧
    matchDistrict "UNKNOWNPLACE" = none ∧
    (handleDetect (GeoOutcome.located "PATNA DIVISION") initState).1.district = "0501" ∧
    handleDetect (GeoOutcome.located "UNKNOWNPLACE") initState =
      (initState, some "Could not auto-detect district. Please select from list.") ∧
    SAMPLE_DISTRICTS.all
      (fun d => (firstToken d.district_name).data.map Char.toUpper
        == (firstToken d.district_name).data) = true := by
  refine ⟨by decide, by decide, by decide, by decide, by decide⟩

/-- C1 counterexample: the fallback dashboard state substituted on fetch
failure is not the same for every district code — for the codes 0501 and
0502 the fallback KPI snapshots differ in their district_name field. -/
theorem fallback_varies_with_district :
    (applyFetch "0501" FetchResult.failure initState).1 ≠
    (applyFetch "0502" FetchResult.failure initState).1 := by
  decide

/-- C1 (amended): on fetch failure for any district code and any prior
state, the user is alerted, the time-series becomes the fixed sample
series, and the KPI snapshot becomes the fallback snapshot, all of whose
fields except district_name are the same fixed constants for every
district code. -/
theorem fallback_fixed_except_district_name :
    ∀ (code : String) (s : DashState),
      (applyFetch code FetchResult.failure s).1.timeseries = SAMPLE_TIMESERIES ∧
      (applyFetch code FetchResult.failure s).2 = some fetchFailureNotice ∧
      (applyFetch code FetchResult.failure s).1.districtInfo = some (fallbackKpis code) ∧
      ∀ code' : String,
        { fallbackKpis code with district_name := "" } =
        { fallbackKpis code' with district_name := "" } := by
  intro code s
  exact ⟨rfl, rfl, rfl, fun code' => rfl⟩

/-- C6: on a successful fetch whose payload parses as JSON, the KPI
snapshot becomes exactly the payload's kpis field and the time-series
becomes exactly the payload's timeseries field, independent of whatever
snapshot and series were held before — wholesale replacement, not a
merge — and no alert is raised. -/
theorem fetch_success_replaces_wholesale :
    ∀ (d : String) (k : Option KPI) (ts : List TimeseriesPoint) (s s' : DashState),
      (applyFetch d (FetchResult.success k (some ts)) s).1.districtInfo = k ∧
      (applyFetch d (FetchResult.success k (some ts)) s).1.timeseries = ts ∧
      (applyFetch d (FetchResult.success k (some ts)) s).1.districtInfo =
        (applyFetch d (FetchResult.success k (some ts)) s').1.districtInfo ∧
      (applyFetch d (FetchResult.success k (some ts)) s).1.timeseries =
        (applyFetch d (FetchResult.success k (some ts)) s').1.timeseries ∧
      (applyFetch d (FetchResult.success k (some ts)) s).2 = none := by
  intro d k ts s s'
  exact ⟨rfl, rfl, rfl, rfl, rfl⟩

/-- C7: each detect-my-district failure path — geolocation unsupported,
permission denied, reverse-geocoding failure, and no heuristic match —
raises a notice and returns the dashboard state unchanged, so the
selected district, the KPI snapshot and the displayed time-series all
stay as they were. -/
theorem detect_failure_paths_preserve_state :
    ∀ s : DashState,
      handleDetect GeoOutcome.unsupported s =
        (s, some "Geolocation not available on this device") ∧
      handleDetect GeoOutcome.denied s =
        (s, some "Location permission denied or unavailable") ∧
      handleDetect GeoOutcome.geocodeFailed s =
        (s, some "Auto-detect failed — please select manually.") ∧
      ∀ loc : String, matchDistrict loc = none →
        handleDetect (GeoOutcome.located loc) s =
          (s, some "Could not auto-detect district. Please select from list.") := by
  intro s
  refine ⟨rfl, rfl, rfl, fun loc h => ?_⟩
  show (match matchDistrict loc with
    | some d => ({ s with district := d.district_code }, none)
    | none => (s, some "Could not auto-detect district. Please select from list.")) = _
  rw [h]

/-- Witness for `detect_failure_paths_preserve_state` at the initial
state, with the unmatched locality "UNKNOWNPLACE". -/
theorem detect_failure_paths_preserve_state_witness :
    handleDetect GeoOutcome.unsupported initState =
      (initState, some "Geolocation not available on this device") ∧
    handleDetect GeoOutcome.denied initState =
      (initState, some "Location permission denied or unavailable") ∧
    handleDetect GeoOutcome.geocodeFailed initState =
      (initState, some "Auto-detect failed — please select manually.") ∧
    handleDetect (GeoOutcome.located "UNKNOWNPLACE") initState =
      (initState, some "Could not auto-detect district. Please select from list.") :=
  ⟨(detect_failure_paths_preserve_state initState).1,
   (detect_failure_paths_preserve_state initState).2.1,
   (detect_failure_paths_preserve_state initState).2.2.1,
   (detect_failure_paths_preserve_state initState).2.2.2 "UNKNOWNPLACE" (by decide)⟩

/-- C10: the district_name of the fallback KPI snapshot equals the name
found for the selected code in the static district list, or "Unknown"
when the code is absent from it, and every other field of the snapshot
is the same for all codes. -/
theorem fallback_kpis_name_lookup :
    (∀ (c : String) (d : District),
      SAMPLE_DISTRICTS.find? (fun x => x.district_code == c) = some d →
      (fallbackKpis c).district_name = d.district_name) ∧
    (∀ c : String,
      SAMPLE_DISTRICTS.find? (fun x => x.district_code == c) = none →
      (fallbackKpis c).district_name = "Unknown") ∧
    (∀ c c' : String,
      { fallbackKpis c with district_name := "" } =
      { fallbackKpis c' with district_name := "" }) := by
  refine ⟨?_, ?_, fun c c' => rfl⟩
  · intro c d h
    unfold fallbackKpis
    rw [h]
  · intro c h
    unfold fallbackKpis
    rw [h]

/-- Witness for `fallback_kpis_name_lookup` at the listed code "0501"
(PATNA) and the unlisted code "XXXX" (Unknown). -/
theorem fallback_kpis_name_lookup_witness :
    (fallbackKpis "0501").district_name = "PATNA" ∧
    (fallbackKpis "XXXX").district_name = "Unknown" ∧
    { fallbackKpis "0501" with district_name := "" } =
    { fallbackKpis "XXXX" with district_name := "" } :=
  ⟨fallback_kpis_name_lookup.1 "0501" ⟨"0501", "PATNA"⟩ (by decide),
   fallback_kpis_name_lookup.2.1 "XXXX" (by decide),
   fallback_kpis_name_lookup.2.2 "0501" "XXXX"⟩

/-- C8 counterexample: not every user-facing label switches with the
language flag — the State Comparison page heading, the twelfth visible
label, reads "State Performance Comparison" under English and still does
after toggling to Hindi, because that component never receives the
language flag. -/
theorem lang_labels_not_all_switch :
    (appLabels Lang.en).getD 11 "" = (appLabels (toggleLang Lang.en)).getD 11 "" ∧
    (appLabels Lang.en).getD 11 "" = "State Performance Comparison" := by
  exact ⟨rfl, rfl⟩

/-- C8 (amended): toggling the language flag is an involution that
switches every language-parameterized label between two everywhere
distinct variants and leaves every underlying numeric value unchanged
(the KPI card values are identical under both languages, and the
comparison data functions take no language input at all); the State
Comparison page's fixed English headings are unaffected by the toggle. -/
theorem lang_toggle_switches_labels_not_numbers :
    ((translatedLabels Lang.en).zip (translatedLabels Lang.hi)).all
      (fun p => p.1 != p.2) = true ∧
    (∀ l : Lang, toggleLang (toggleLang l) = l) ∧
    (∀ l : Lang, translatedLabels (toggleLang l) ≠ translatedLabels l) ∧
    (∀ (l : Lang) (info : KPI),
      (kpiSection (toggleLang l) info).map Prod.snd =
        (kpiSection l info).map Prod.snd) ∧
    (∀ l : Lang, stateComparisonLabels (toggleLang l) = stateComparisonLabels l) := by
  refine ⟨by decide, fun l => ?_, fun l => ?_, fun l info => ?_, fun l => rfl⟩
  · cases l <;> rfl
  · cases l <;> decide
  · cases l <;> rfl
